import Mathlib

/-!
Verification of the `Carbonfreezer/multiplayer` relay / session-transport core.

Shallow embedding: the Rust sources under `src/` are translated into pure
Lean definitions.  Byte frames become `List Nat` (each element an octet),
`u16` values become `Nat` bounded by `65536` where it matters, tokio tasks
become functions from the list of frames they would receive to the list of
frames they send, and the `f32` times of the timer wheel become exact
rationals (the only operations the timer performs on times are subtraction
and a sign test, which `ℚ` models faithfully).
-/

namespace Multiplayer

/-! ### Protocol constants (src/protocol/src/lib.rs) -/

/-- Client → server tag `NEW_CLIENT` (src/protocol/src/lib.rs, value 0). -/
def NEW_CLIENT : Nat := 0

/-- Client → server tag `CLIENT_DISCONNECTS` (value 1). -/
def CLIENT_DISCONNECTS : Nat := 1

/-- Client → server tag `SERVER_RPC` (value 2). -/
def SERVER_RPC : Nat := 2

/-- Client → server tag `CLIENT_DISCONNECTS_SELF` (value 3). -/
def CLIENT_DISCONNECTS_SELF : Nat := 3

/-- Server → client tag `SERVER_DISCONNECTS` (value 0). -/
def SERVER_DISCONNECTS : Nat := 0

/-- Server → client tag `CLIENT_GETS_KICKED` (value 1). -/
def CLIENT_GETS_KICKED : Nat := 1

/-- Server → client tag `DELTA_UPDATE` (value 2). -/
def DELTA_UPDATE : Nat := 2

/-- Server → client tag `FULL_UPDATE` (value 3). -/
def FULL_UPDATE : Nat := 3

/-- Server → client tag `RESET` (value 4). -/
def RESET : Nat := 4

/-- Server → client tag `SERVER_ERROR` (value 5). -/
def SERVER_ERROR : Nat := 5

/-- Server → client tag `HAND_SHAKE_RESPONSE` (value 6). -/
def HAND_SHAKE_RESPONSE : Nat := 6

/-- A binary WebSocket frame: a list of octets. -/
abbrev Frame := List Nat

/-- `BufMut::put_u16`: big-endian encoding of a 16-bit value, two octets. -/
def pushU16 (n : Nat) : List Nat := [n / 256 % 256, n % 256]

/-- Big-endian decoding of two octets (`Buf::get_u16`). -/
def getU16 (hi lo : Nat) : Nat := hi * 256 + lo

/-! ### Relay, per-subscriber outbound loop
(`send_logic_client`, src/relay-server/src/processing_module.rs lines
200-295; duplicated in src/relay-server/src/message_relay.rs lines
268-358).

The loop keeps one mutable boolean `is_synced` (initially `false`), reads
broadcast frames, and either forwards a frame to the subscriber's socket,
drops it, or terminates.  We model one iteration as `clientStep` and the
whole loop as `sendLogicClient`, whose result is the list of frames passed
to the socket `send` call, in order.  Channel errors (`Closed`, `Lagged`)
and socket write failures end the loop without producing further output;
they are modelled by the input list ending / by termination flags. -/

/-- Result of one iteration of `send_logic_client`: the new `is_synced`
flag, the frame forwarded to the subscriber socket (if any), and whether
the loop continues. -/
structure ClientStepRes where
  synced : Bool
  out : Option Frame
  cont : Bool
deriving Repr, DecidableEq

/-- One iteration of the `match bytes[0]` dispatch of `send_logic_client`
on a received broadcast frame, given the subscriber's `player_id` and the
current `is_synced` flag. -/
def clientStep (player_id : Nat) (is_synced : Bool) (bytes : Frame) : ClientStepRes :=
  match bytes with
  | [] => ⟨is_synced, none, false⟩      -- illegal empty message: return
  | tag :: rest =>
    if tag = SERVER_DISCONNECTS then ⟨is_synced, none, false⟩
    else if tag = CLIENT_GETS_KICKED then
      match rest with
      | hi :: lo :: _ =>
        if getU16 hi lo = player_id then ⟨is_synced, none, false⟩
        else ⟨is_synced, none, true⟩
      | _ => ⟨is_synced, none, false⟩   -- malformed (len < 3): return
    else if tag = DELTA_UPDATE then
      if is_synced then ⟨is_synced, some bytes, true⟩
      else ⟨is_synced, none, true⟩      -- silently dropped
    else if tag = FULL_UPDATE then
      if is_synced then ⟨is_synced, none, true⟩   -- redundant full update dropped
      else ⟨true, some bytes, true⟩
    else if tag = RESET then ⟨true, some bytes, true⟩
    else ⟨is_synced, none, false⟩       -- illegal message: return

/-- The `send_logic_client` loop over a sequence of received broadcast
frames: returns the frames forwarded to the subscriber's socket. -/
def sendLogicClient (player_id : Nat) (is_synced : Bool) : List Frame → List Frame
  | [] => []
  | f :: fs =>
    let r := clientStep player_id is_synced f
    r.out.toList ++ (if r.cont then sendLogicClient player_id r.synced fs else [])

/-- Does a frame carry one of the two sync-establishing tags
(`FULL_UPDATE` or `RESET`)? -/
def isFullOrReset (f : Frame) : Bool :=
  f.head? = some FULL_UPDATE ∨ f.head? = some RESET

/-- Does a frame carry the `DELTA_UPDATE` tag? -/
def isDelta (f : Frame) : Bool := f.head? = some DELTA_UPDATE

/-! ### Relay, per-client inbound loop
(`receive_logic_client`, src/relay-server/src/processing_module.rs lines
152-197; duplicated in src/relay-server/src/message_relay.rs).  For a
`SERVER_RPC` frame the relay rebuilds the message as
`put_u8 SERVER_RPC; put_u16 player_id; put_slice bytes[1..]` and forwards
it to the host inbox. -/

/-- One iteration of `receive_logic_client` on a received client frame:
`some msg` when a message is forwarded to the host inbox, `none` when the
frame terminates the loop (empty frame, `CLIENT_DISCONNECTS_SELF`, or an
illegal command). -/
def receiveClientStep (player_id : Nat) (bytes : Frame) : Option Frame :=
  match bytes with
  | [] => none
  | tag :: rest =>
    if tag = SERVER_RPC then
      some (SERVER_RPC :: (pushU16 player_id ++ rest))
    else
      none

end Multiplayer

namespace Multiplayer

/-! ### Lemmas about the subscriber outbound loop -/

/-- Count of frames with a given head tag. -/
def countTag (t : Nat) (l : List Frame) : Nat :=
  l.countP (fun g => g.head? == some t)

/-- While unsynced, the output of `send_logic_client` contains no
`DELTA_UPDATE` frame before the first `FULL_UPDATE`/`RESET` frame. -/
theorem sendLogicClient_gate_aux (pid : Nat) (fs : List Frame) :
    ((sendLogicClient pid false fs).takeWhile
      (fun g => !(isFullOrReset g))).countP (fun g => isDelta g) = 0 := by
  induction fs with
  | nil => simp [sendLogicClient]
  | cons f fs ih =>
    match f with
    | [] => simp [sendLogicClient, clientStep]
    | tag :: rest =>
      by_cases h0 : tag = SERVER_DISCONNECTS
      · simp [sendLogicClient, clientStep, h0]
      · by_cases h1 : tag = CLIENT_GETS_KICKED
        · match rest with
          | [] => simp [sendLogicClient, clientStep, h0, h1]
          | [hi] => simp [sendLogicClient, clientStep, h0, h1]
          | hi :: lo :: r =>
            by_cases hk : getU16 hi lo = pid
            · simp [sendLogicClient, clientStep, h0, h1, hk]
            · simpa [sendLogicClient, clientStep, h0, h1, hk] using ih
        · by_cases h2 : tag = DELTA_UPDATE
          · simpa [sendLogicClient, clientStep, h0, h1, h2] using ih
          · by_cases h3 : tag = FULL_UPDATE
            · simp [sendLogicClient, clientStep, h0, h1, h2, h3,
                    isFullOrReset, List.takeWhile]
            · by_cases h4 : tag = RESET
              · simp [sendLogicClient, clientStep, h0, h1, h2, h3, h4,
                      isFullOrReset, List.takeWhile]
              · simp [sendLogicClient, clientStep, h0, h1, h2, h3, h4]

end Multiplayer

namespace Multiplayer

/-! Definitional equations of the `send_logic_client` loop, one per
dispatch branch. -/

/-- An empty frame terminates the loop with no output. -/
theorem sendLogicClient_empty_frame (pid : Nat) (s : Bool) (fs : List Frame) :
    sendLogicClient pid s ([] :: fs) = [] := rfl

/-- `SERVER_DISCONNECTS` terminates the loop with no output. -/
theorem sendLogicClient_disc (pid : Nat) (s : Bool) (r : List Nat) (fs : List Frame) :
    sendLogicClient pid s ((SERVER_DISCONNECTS :: r) :: fs) = [] := rfl

/-- An unsynced subscriber silently drops a `DELTA_UPDATE`. -/
theorem sendLogicClient_delta_unsynced (pid : Nat) (r : List Nat) (fs : List Frame) :
    sendLogicClient pid false ((DELTA_UPDATE :: r) :: fs)
      = sendLogicClient pid false fs := rfl

/-- A synced subscriber forwards a `DELTA_UPDATE` verbatim. -/
theorem sendLogicClient_delta_synced (pid : Nat) (r : List Nat) (fs : List Frame) :
    sendLogicClient pid true ((DELTA_UPDATE :: r) :: fs)
      = (DELTA_UPDATE :: r) :: sendLogicClient pid true fs := rfl

/-- An unsynced subscriber forwards a `FULL_UPDATE` and becomes synced. -/
theorem sendLogicClient_full_unsynced (pid : Nat) (r : List Nat) (fs : List Frame) :
    sendLogicClient pid false ((FULL_UPDATE :: r) :: fs)
      = (FULL_UPDATE :: r) :: sendLogicClient pid true fs := rfl

/-- A synced subscriber drops a redundant `FULL_UPDATE`. -/
theorem sendLogicClient_full_synced (pid : Nat) (r : List Nat) (fs : List Frame) :
    sendLogicClient pid true ((FULL_UPDATE :: r) :: fs)
      = sendLogicClient pid true fs := rfl

/-- A `RESET` is forwarded unconditionally and leaves the subscriber synced. -/
theorem sendLogicClient_reset (pid : Nat) (s : Bool) (r : List Nat) (fs : List Frame) :
    sendLogicClient pid s ((RESET :: r) :: fs)
      = (RESET :: r) :: sendLogicClient pid true fs := rfl

/-- A `CLIENT_GETS_KICKED` for another player is dropped and the loop goes on. -/
theorem sendLogicClient_kick_other (pid : Nat) (s : Bool) (hi lo : Nat)
    (r : List Nat) (fs : List Frame) (h : getU16 hi lo ≠ pid) :
    sendLogicClient pid s ((CLIENT_GETS_KICKED :: hi :: lo :: r) :: fs)
      = sendLogicClient pid s fs := by
  simp [sendLogicClient, clientStep, h, CLIENT_GETS_KICKED, SERVER_DISCONNECTS]

/-- A `CLIENT_GETS_KICKED` aimed at this subscriber terminates the loop. -/
theorem sendLogicClient_kick_self (pid : Nat) (s : Bool) (hi lo : Nat)
    (r : List Nat) (fs : List Frame) (h : getU16 hi lo = pid) :
    sendLogicClient pid s ((CLIENT_GETS_KICKED :: hi :: lo :: r) :: fs) = [] := by
  simp [sendLogicClient, clientStep, h, CLIENT_GETS_KICKED, SERVER_DISCONNECTS]

/-- `countTag` steps over a cons cell. -/
theorem countTag_cons (t : Nat) (f : Frame) (l : List Frame) :
    countTag t (f :: l) = countTag t l + (if f.head? = some t then 1 else 0) := by
  simp [countTag, List.countP_cons]

/-- From a synced state, `clientStep` stays synced on every frame:
`is_synced` is never cleared. -/
theorem clientStep_synced_mono (pid : Nat) (f : Frame) :
    (clientStep pid true f).synced = true := by
  rcases f with _ | ⟨tag, rest⟩
  · rfl
  · rcases rest with _ | ⟨hi, rest⟩
    · simp only [clientStep]; split_ifs <;> rfl
    · rcases rest with _ | ⟨lo, r⟩
      · simp only [clientStep]; split_ifs <;> rfl
      · simp only [clientStep]; split_ifs <;> rfl

/-- From a synced state, no `FULL_UPDATE` frame is ever forwarded again. -/
theorem sendLogicClient_synced_no_full (pid : Nat) (fs : List Frame) :
    countTag FULL_UPDATE (sendLogicClient pid true fs) = 0 := by
  induction fs with
  | nil => rfl
  | cons f fs ih =>
    rcases f with _ | ⟨tag, rest⟩
    · rw [sendLogicClient_empty_frame]; rfl
    · by_cases h0 : tag = SERVER_DISCONNECTS
      · subst h0; rw [sendLogicClient_disc]; rfl
      · by_cases h1 : tag = CLIENT_GETS_KICKED
        · subst h1
          rcases rest with _ | ⟨hi, rest⟩
          · have : sendLogicClient pid true ((CLIENT_GETS_KICKED :: ([] : List Nat)) :: fs) = [] := rfl
            rw [this]; rfl
          · rcases rest with _ | ⟨lo, r⟩
            · have : sendLogicClient pid true ((CLIENT_GETS_KICKED :: [hi]) :: fs) = [] := rfl
              rw [this]; rfl
            · by_cases hk : getU16 hi lo = pid
              · rw [sendLogicClient_kick_self pid true hi lo r fs hk]; rfl
              · rw [sendLogicClient_kick_other pid true hi lo r fs hk]; exact ih
        · by_cases h2 : tag = DELTA_UPDATE
          · subst h2
            rw [sendLogicClient_delta_synced, countTag_cons]
            simpa [FULL_UPDATE, DELTA_UPDATE] using ih
          · by_cases h3 : tag = FULL_UPDATE
            · subst h3; rw [sendLogicClient_full_synced]; exact ih
            · by_cases h4 : tag = RESET
              · subst h4
                rw [sendLogicClient_reset, countTag_cons]
                simpa [FULL_UPDATE, RESET] using ih
              · have : sendLogicClient pid true ((tag :: rest) :: fs) = [] := by
                  simp [sendLogicClient, clientStep, h0, h1, h2, h3, h4]
                rw [this]; rfl

/-- Over a subscriber's whole lifetime (starting unsynced), at most one
`FULL_UPDATE` frame is forwarded. -/
theorem sendLogicClient_at_most_one_full (pid : Nat) (fs : List Frame) :
    countTag FULL_UPDATE (sendLogicClient pid false fs) ≤ 1 := by
  induction fs with
  | nil => simp [sendLogicClient, countTag]
  | cons f fs ih =>
    rcases f with _ | ⟨tag, rest⟩
    · rw [sendLogicClient_empty_frame]; simp [countTag]
    · by_cases h0 : tag = SERVER_DISCONNECTS
      · subst h0; rw [sendLogicClient_disc]; simp [countTag]
      · by_cases h1 : tag = CLIENT_GETS_KICKED
        · subst h1
          rcases rest with _ | ⟨hi, rest⟩
          · have : sendLogicClient pid false ((CLIENT_GETS_KICKED :: ([] : List Nat)) :: fs) = [] := rfl
            rw [this]; simp [countTag]
          · rcases rest with _ | ⟨lo, r⟩
            · have : sendLogicClient pid false ((CLIENT_GETS_KICKED :: [hi]) :: fs) = [] := rfl
              rw [this]; simp [countTag]
            · by_cases hk : getU16 hi lo = pid
              · rw [sendLogicClient_kick_self pid false hi lo r fs hk]; simp [countTag]
              · rw [sendLogicClient_kick_other pid false hi lo r fs hk]; exact ih
        · by_cases h2 : tag = DELTA_UPDATE
          · subst h2; rw [sendLogicClient_delta_unsynced]; exact ih
          · by_cases h3 : tag = FULL_UPDATE
            · subst h3
              rw [sendLogicClient_full_unsynced, countTag_cons,
                  sendLogicClient_synced_no_full]
              simp
            · by_cases h4 : tag = RESET
              · subst h4
                rw [sendLogicClient_reset, countTag_cons,
                    sendLogicClient_synced_no_full]
                simp [FULL_UPDATE, RESET]
              · have : sendLogicClient pid false ((tag :: rest) :: fs) = [] := by
                  simp [sendLogicClient, clientStep, h0, h1, h2, h3, h4]
                rw [this]; simp [countTag]

end Multiplayer

namespace Multiplayer

/-- From an unsynced state, one step becomes synced exactly on a
`FULL_UPDATE` or `RESET` frame. -/
theorem clientStep_unsynced_synced (pid : Nat) (f : Frame) :
    (clientStep pid false f).synced = isFullOrReset f := by
  rcases f with _ | ⟨tag, rest⟩
  · rfl
  · rcases rest with _ | ⟨hi, rest⟩
    · simp only [clientStep]
      split_ifs <;>
        simp_all [isFullOrReset, SERVER_DISCONNECTS, CLIENT_GETS_KICKED,
                  DELTA_UPDATE, FULL_UPDATE, RESET]
    · rcases rest with _ | ⟨lo, r⟩
      · simp only [clientStep]
        split_ifs <;>
          simp_all [isFullOrReset, SERVER_DISCONNECTS, CLIENT_GETS_KICKED,
                    DELTA_UPDATE, FULL_UPDATE, RESET]
      · simp only [clientStep]
        split_ifs <;>
          simp_all [isFullOrReset, SERVER_DISCONNECTS, CLIENT_GETS_KICKED,
                    DELTA_UPDATE, FULL_UPDATE, RESET]

/-- C1 — Sync gate: over any sequence of broadcast frames processed by
`send_logic_client` starting with `is_synced = false`, the forwarded
output contains no `DELTA_UPDATE` frame before the first forwarded
`FULL_UPDATE`/`RESET` frame; a `DELTA_UPDATE` received while unsynced is
silently dropped, and a `DELTA_UPDATE` received while synced is
forwarded verbatim. -/
theorem sync_gate_c1 (pid : Nat) (fs : List Frame) (r : List Nat) :
    ((sendLogicClient pid false fs).takeWhile
      (fun g => !(isFullOrReset g))).countP (fun g => isDelta g) = 0
    ∧ sendLogicClient pid false ((DELTA_UPDATE :: r) :: fs)
        = sendLogicClient pid false fs
    ∧ sendLogicClient pid true ((DELTA_UPDATE :: r) :: fs)
        = (DELTA_UPDATE :: r) :: sendLogicClient pid true fs :=
  ⟨sendLogicClient_gate_aux pid fs,
   sendLogicClient_delta_unsynced pid r fs,
   sendLogicClient_delta_synced pid r fs⟩

/-- C9 — A subscriber is never un-synced: in `send_logic_client`,
`is_synced` becomes true from false exactly on a `FULL_UPDATE` or
`RESET`, once true it stays true on every frame, and consequently at
most one `FULL_UPDATE` frame is ever forwarded over the subscriber's
lifetime (none at all once synced). -/
theorem never_unsynced_c9 (pid : Nat) (f : Frame) (fs : List Frame) :
    (clientStep pid false f).synced = isFullOrReset f
    ∧ (clientStep pid true f).synced = true
    ∧ countTag FULL_UPDATE (sendLogicClient pid false fs) ≤ 1
    ∧ countTag FULL_UPDATE (sendLogicClient pid true fs) = 0 :=
  ⟨clientStep_unsynced_synced pid f,
   clientStep_synced_mono pid f,
   sendLogicClient_at_most_one_full pid fs,
   sendLogicClient_synced_no_full pid fs⟩

/-- C3 — RPC identity injection: a non-empty client frame tagged
`SERVER_RPC` is forwarded into the host inbox as the tag byte followed by
the big-endian 16-bit player id followed by the original frame's bytes
after the tag. -/
theorem rpc_identity_c3 (p : Nat) (payload : List Nat) (hp : p < 65536) :
    receiveClientStep p (SERVER_RPC :: payload)
      = some (SERVER_RPC :: p / 256 :: p % 256 :: payload) := by
  have hdiv : p / 256 < 256 := Nat.div_lt_of_lt_mul (by omega)
  simp [receiveClientStep, pushU16, Nat.mod_eq_of_lt hdiv]

/-- Concrete instance of the RPC identity theorem: player 258 sending a
one-byte payload. -/
theorem rpc_identity_c3_witness :
    receiveClientStep 258 (SERVER_RPC :: [66])
      = some (SERVER_RPC :: 258 / 256 :: 258 % 256 :: [66]) :=
  rpc_identity_c3 258 [66] (by decide)

end Multiplayer

namespace Multiplayer

/-! ### Timer wheel (src/backbone-lib/src/timer.rs)

`f32` remaining times are embedded as exact rationals; the wheel only
subtracts a delta and tests the sign, which `ℚ` models faithfully. -/

/-- One timer entry (`TimeEntry` in src/backbone-lib/src/timer.rs). -/
structure TimeEntry where
  id : Nat
  remaining_time : ℚ
deriving Repr, DecidableEq

/-- The timer wheel: `Vec<TimeEntry>` in insertion order. -/
abbrev Timer := List TimeEntry

/-- `Timer::start_timer`: drop any entry with this id, then push the new
entry at the end. -/
def Timer.start_timer (l : Timer) (id : Nat) (remaining_time : ℚ) : Timer :=
  (l.filter (fun e => e.id ≠ id)) ++ [⟨id, remaining_time⟩]

/-- `Timer::cancel_timer`: drop any entry with this id. -/
def Timer.cancel_timer (l : Timer) (id : Nat) : Timer :=
  l.filter (fun e => e.id ≠ id)

/-- `Timer::update_and_get_list`: subtract the delta everywhere, collect
ids whose new remaining time is `≤ 0` in list order, retain the rest.
Returns `(fired ids, new wheel)`. -/
def Timer.update_and_get_list (l : Timer) (delta_time : ℚ) : List Nat × Timer :=
  let updated : Timer :=
    l.map (fun e => ⟨e.id, e.remaining_time - delta_time⟩)
  let result := (updated.filter (fun e => e.remaining_time ≤ 0)).map (fun e => e.id)
  (result, updated.filter (fun e => ¬ result.contains e.id))

/-- An id fires on a tick iff the wheel holds an entry for it whose
remaining time is at most the tick's delta. -/
theorem Timer.fired_mem (l : Timer) (i : Nat) (t : ℚ) :
    i ∈ (Timer.update_and_get_list l t).1
      ↔ ∃ e ∈ l, e.id = i ∧ e.remaining_time ≤ t := by
  simp only [Timer.update_and_get_list, List.mem_map, List.mem_filter]
  constructor
  · rintro ⟨e, ⟨⟨a, ha, rfl⟩, hle⟩, rfl⟩
    exact ⟨a, ha, rfl, by simpa [sub_nonpos] using hle⟩
  · rintro ⟨e, he, rfl, hle⟩
    exact ⟨⟨e.id, e.remaining_time - t⟩, ⟨⟨e, he, rfl⟩, by simpa [sub_nonpos] using hle⟩, rfl⟩

/-- Filtering for an id after filtering it away yields nothing. -/
theorem Timer.filter_ne_filter_eq (l : Timer) (i : Nat) :
    (l.filter (fun e => e.id ≠ i)).filter (fun e => e.id = i) = [] := by
  induction l with
  | nil => rfl
  | cons e l ih =>
    by_cases h : e.id = i <;> simp [h, ih]

end Multiplayer

namespace Multiplayer

/-- C8 — Timer replacement and cancel idempotence: re-setting an id with
no tick in between leaves exactly one entry for the id, holding the last
duration; the id then fires on a tick exactly when the last duration has
elapsed (independently of the first duration); cancelling an absent id
leaves the wheel unchanged; and set-then-cancel never fires the id on a
subsequent tick of any length. -/
theorem timer_replacement_c8 (l : Timer) (i : Nat) (d1 d2 t td : ℚ)
    (h : ∀ e ∈ l, e.id ≠ i) :
    ((Timer.start_timer (Timer.start_timer l i d1) i d2).filter
        (fun e => e.id = i)) = [⟨i, d2⟩]
    ∧ (i ∈ (Timer.update_and_get_list
          (Timer.start_timer (Timer.start_timer l i d1) i d2) t).1 ↔ d2 ≤ t)
    ∧ Timer.cancel_timer l i = l
    ∧ i ∉ (Timer.update_and_get_list
          (Timer.cancel_timer (Timer.start_timer l i d1) i) td).1 := by
  have hfilter : ((Timer.start_timer (Timer.start_timer l i d1) i d2).filter
      (fun e => e.id = i)) = [⟨i, d2⟩] := by
    simp [Timer.start_timer, List.filter_append, Timer.filter_ne_filter_eq]
  refine ⟨hfilter, ?_, ?_, ?_⟩
  · rw [Timer.fired_mem]
    constructor
    · rintro ⟨e, he, hid, hle⟩
      have hmem : e ∈ (Timer.start_timer (Timer.start_timer l i d1) i d2).filter
          (fun e => e.id = i) := by
        rw [List.mem_filter]
        exact ⟨he, by simp [hid]⟩
      rw [hfilter] at hmem
      obtain rfl := List.mem_singleton.mp hmem
      simpa using hle
    · intro hle
      refine ⟨⟨i, d2⟩, ?_, rfl, hle⟩
      simp [Timer.start_timer]
  · refine List.filter_eq_self.mpr ?_
    intro a ha
    simpa using h a ha
  · rw [Timer.fired_mem]
    rintro ⟨e, he, hid, -⟩
    simp only [Timer.cancel_timer, List.mem_filter, decide_eq_true_eq] at he
    exact absurd hid he.2

/-- Concrete instance of the timer theorem: a wheel holding timer 7,
timer 3 set to 1 s then re-set to 2 s, ticked by 2 s then by 9 s. -/
theorem timer_replacement_c8_witness :
    ((Timer.start_timer (Timer.start_timer [⟨7, 5⟩] 3 1) 3 2).filter
        (fun e => e.id = 3)) = [⟨3, 2⟩]
    ∧ (3 ∈ (Timer.update_and_get_list
          (Timer.start_timer (Timer.start_timer [⟨7, 5⟩] 3 1) 3 2) 2).1 ↔ (2:ℚ) ≤ 2)
    ∧ Timer.cancel_timer [⟨7, 5⟩] 3 = [⟨7, 5⟩]
    ∧ 3 ∉ (Timer.update_and_get_list
          (Timer.cancel_timer (Timer.start_timer [⟨7, 5⟩] 3 1) 3) 9).1 :=
  timer_replacement_c8 [⟨7, 5⟩] 3 1 2 2 9 (by decide)

end Multiplayer

namespace Multiplayer

/-! ### Handshake (src/relay-server/src/hand_shake.rs)

The lobby's `rooms` map is embedded as an association list keyed by the
compound room id.  WebSocket sends to the joining connection and channel
sends to the host inbox are recorded as output lists.  The fallible
`to_host_sender.send` (host gone mid-handshake) is a boolean input
`hostAlive`. -/

/-- `Room` (src/relay-server/src/server_state.rs): the counters and the
rule variation; the channel endpoints carry no state we model. -/
structure Room where
  next_client_id : Nat
  amount_of_players : Nat
  rule_variation : Nat
deriving Repr, DecidableEq

/-- Something written to the joining connection's socket during a refused
handshake. -/
inductive JoinerOut where
  | serverErrorMsg (reason : String)
  | closeMsg
deriving Repr, DecidableEq

/-- `send_closing_message`: a `SERVER_ERROR` frame with the reason text,
then a close frame. -/
def send_closing_message (reason : String) : List JoinerOut :=
  [JoinerOut.serverErrorMsg reason, JoinerOut.closeMsg]

/-- Why a join was refused (the branches of `process_handshake_client`). -/
inductive JoinRefusal where
  | roomFull
  | idsExhausted
  | hostGone
deriving Repr, DecidableEq

/-- Result of the room mutation inside `process_handshake_client` once
the room was found. -/
inductive JoinStepRes where
  /-- Refused; `room'` is the room as left behind, `sentNewClient` tells
  whether a `NEW_CLIENT` message reached the send attempt. -/
  | refuse (room' : Room) (sentNewClient : Bool) (why : JoinRefusal)
  /-- Accepted with the assigned player id. -/
  | ok (room' : Room) (player_id : Nat)
deriving Repr, DecidableEq

/-- The body of `process_handshake_client` acting on the found room
(src/relay-server/src/hand_shake.rs lines 214-261): capacity check,
id-exhaustion check, then increment both counters; if the `NEW_CLIENT`
send fails the player count is rolled back but the consumed id is not. -/
def joinRoomStep (room : Room) (max_players : Nat) (hostAlive : Bool) : JoinStepRes :=
  if max_players ≠ 0 ∧ max_players ≤ room.amount_of_players then
    JoinStepRes.refuse room false JoinRefusal.roomFull
  else if room.next_client_id > 32700 then
    JoinStepRes.refuse room false JoinRefusal.idsExhausted
  else if hostAlive then
    JoinStepRes.ok
      ⟨room.next_client_id + 1, room.amount_of_players + 1, room.rule_variation⟩
      room.next_client_id
  else
    JoinStepRes.refuse
      ⟨room.next_client_id + 1, room.amount_of_players, room.rule_variation⟩
      true JoinRefusal.hostGone

/-- Lookup in the rooms map (`rooms.get_mut(&compound_room_id)`). -/
def lookupRoom (rooms : List (String × Room)) (key : String) : Option Room :=
  (rooms.find? (fun p => p.1 == key)).map Prod.snd

/-- In-place update of the room stored under a key. -/
def updateRoom (rooms : List (String × Room)) (key : String) (r : Room) :
    List (String × Room) :=
  rooms.map (fun p => if p.1 == key then (key, r) else p)

/-- The full outcome of one handshake attempt: the rooms map afterwards,
the `(player_id, rule_variation)` handed to the surviving connection,
what was written to the joining socket, and what was sent into the host
inbox. -/
structure HandshakeOutput where
  rooms : List (String × Room)
  result : Option (Nat × Nat)
  joinerMsgs : List JoinerOut
  hostMsgs : List Frame
deriving Repr, DecidableEq

/-- `process_handshake_client` (src/relay-server/src/hand_shake.rs lines
200-271).  `rule_variation` is the joiner's requested value from the
`JoinRequest`; the code never reads it on this path. -/
def process_handshake_client (rooms : List (String × Room))
    (compound_room_id room_id game_id : String)
    (rule_variation max_players : Nat) (hostAlive : Bool) : HandshakeOutput :=
  match lookupRoom rooms compound_room_id with
  | none =>
    ⟨rooms, none,
     send_closing_message
       ("Room " ++ room_id ++ " does not exist for game " ++ game_id ++ "."), []⟩
  | some room =>
    match joinRoomStep room max_players hostAlive with
    | JoinStepRes.refuse _ _ JoinRefusal.roomFull =>
      ⟨rooms, none,
       send_closing_message
         ("Room  " ++ room_id ++ " exceeded max amount of players "
           ++ toString max_players ++ "."), []⟩
    | JoinStepRes.refuse _ _ JoinRefusal.idsExhausted =>
      ⟨rooms, none,
       send_closing_message ("Room " ++ room_id ++ " run out of client ids."), []⟩
    | JoinStepRes.refuse room' _ JoinRefusal.hostGone =>
      ⟨updateRoom rooms compound_room_id room', none,
       send_closing_message "Server unexpectedly left during handshake",
       [NEW_CLIENT :: pushU16 room.next_client_id]⟩
    | JoinStepRes.ok room' player_id =>
      ⟨updateRoom rooms compound_room_id room',
       some (player_id, room.rule_variation), [],
       [NEW_CLIENT :: pushU16 player_id]⟩

/-- `process_handshake_server` (src/relay-server/src/hand_shake.rs lines
274-308): refuse if the compound key exists, otherwise create the room
with `next_client_id = 1`, `amount_of_players = 1` and the requested rule
variation, answering with player id 0. -/
def process_handshake_server (rooms : List (String × Room))
    (compound_room_id room_id game_id : String)
    (rule_variation : Nat) : HandshakeOutput :=
  match lookupRoom rooms compound_room_id with
  | some _ =>
    ⟨rooms, none,
     send_closing_message
       ("Room " ++ room_id ++ " already exists for game " ++ game_id ++ "."), []⟩
  | none =>
    ⟨(compound_room_id, ⟨1, 1, rule_variation⟩) :: rooms,
     some (0, rule_variation), [], []⟩

/-- `inform_client_of_connection`: the `HAND_SHAKE_RESPONSE` frame,
tag then big-endian player id then big-endian rule variation. -/
def inform_client_of_connection (player_id rule_variation : Nat) : Frame :=
  HAND_SHAKE_RESPONSE :: (pushU16 player_id ++ pushU16 rule_variation)

end Multiplayer

namespace Multiplayer

/-- Unfolding `lookupRoom` over a cons cell. -/
theorem lookupRoom_cons (p : String × Room) (rest : List (String × Room)) (key : String) :
    lookupRoom (p :: rest) key = if p.1 == key then some p.2 else lookupRoom rest key := by
  by_cases hp : p.1 == key <;> simp [lookupRoom, List.find?_cons, hp]

/-- Updating the stored room and looking the same key up returns the new
room, provided the key was present. -/
theorem lookupRoom_updateRoom_self (rooms : List (String × Room)) (key : String)
    (room r : Room) (h : lookupRoom rooms key = some room) :
    lookupRoom (updateRoom rooms key r) key = some r := by
  induction rooms with
  | nil => simp [lookupRoom] at h
  | cons p rest ih =>
    by_cases hp : p.1 = key
    · simp [updateRoom, lookupRoom_cons, hp]
    · rw [lookupRoom_cons, if_neg (by simpa using hp)] at h
      simpa [updateRoom, lookupRoom_cons, hp] using ih h

/-- Updating one key leaves lookups of any other key unchanged. -/
theorem lookupRoom_updateRoom_other (rooms : List (String × Room)) (key key2 : String)
    (r : Room) (h : key2 ≠ key) :
    lookupRoom (updateRoom rooms key r) key2 = lookupRoom rooms key2 := by
  induction rooms with
  | nil => rfl
  | cons p rest ih =>
    by_cases hp : p.1 == key
    · have hkey : p.1 = key := by simpa using hp
      have h2 : ¬(key == key2) := by simpa using fun he => h he.symm
      have h3 : ¬(p.1 == key2) := by simp [hkey]; exact fun he => h he.symm
      simp only [updateRoom, List.map_cons, if_pos hp]
      rw [lookupRoom_cons, lookupRoom_cons, if_neg (by simpa using h2),
          if_neg (by simpa using h3)]
      exact ih
    · simp only [updateRoom, List.map_cons, if_neg hp]
      rw [lookupRoom_cons, lookupRoom_cons]
      by_cases hq : p.1 == key2
      · simp [hq]
      · simp only [hq, if_neg]
        exact ih

/-- C6 — Capacity refusal is atomic: a join against an existing room of a
capped game that is at or over capacity answers the joining connection
with a `SERVER_ERROR` frame followed by a close frame, reports failure,
sends nothing to the host inbox, and leaves the rooms map (its counters
and rule variation included) untouched. -/
theorem capacity_refusal_c6 (rooms : List (String × Room))
    (key room_id game_id : String) (rv max_players : Nat) (hostAlive : Bool)
    (room : Room) (hfind : lookupRoom rooms key = some room)
    (hmax : max_players ≠ 0) (hfull : max_players ≤ room.amount_of_players) :
    (process_handshake_client rooms key room_id game_id rv max_players hostAlive).rooms
        = rooms
    ∧ (process_handshake_client rooms key room_id game_id rv max_players hostAlive).result
        = none
    ∧ (process_handshake_client rooms key room_id game_id rv max_players hostAlive).joinerMsgs
        = send_closing_message
            ("Room  " ++ room_id ++ " exceeded max amount of players "
              ++ toString max_players ++ ".")
    ∧ (process_handshake_client rooms key room_id game_id rv max_players hostAlive).hostMsgs
        = [] := by
  have hstep : joinRoomStep room max_players hostAlive
      = JoinStepRes.refuse room false JoinRefusal.roomFull := by
    simp [joinRoomStep, hmax, hfull]
  simp [process_handshake_client, hfind, hstep]

/-- Concrete instance of the capacity refusal: a two-player game with a
room already holding two players. -/
theorem capacity_refusal_c6_witness :
    (process_handshake_client [("r1#Ternio", ⟨3, 2, 0⟩)] "r1#Ternio" "r1" "Ternio" 0 2 true).rooms
        = [("r1#Ternio", ⟨3, 2, 0⟩)]
    ∧ (process_handshake_client [("r1#Ternio", ⟨3, 2, 0⟩)] "r1#Ternio" "r1" "Ternio" 0 2 true).result
        = none
    ∧ (process_handshake_client [("r1#Ternio", ⟨3, 2, 0⟩)] "r1#Ternio" "r1" "Ternio" 0 2 true).joinerMsgs
        = send_closing_message
            ("Room  " ++ "r1" ++ " exceeded max amount of players " ++ toString 2 ++ ".")
    ∧ (process_handshake_client [("r1#Ternio", ⟨3, 2, 0⟩)] "r1#Ternio" "r1" "Ternio" 0 2 true).hostMsgs
        = [] :=
  capacity_refusal_c6 [("r1#Ternio", ⟨3, 2, 0⟩)] "r1#Ternio" "r1" "Ternio" 0 2 true
    ⟨3, 2, 0⟩ (by rfl) (by decide) (by decide)

end Multiplayer

namespace Multiplayer

/-- Characterisation of an accepted join step: the assigned id is the
room's current `next_client_id`, the counter and player count are
incremented, and the rule variation is untouched. -/
theorem joinRoomStep_ok_spec (room : Room) (max_players : Nat) (hostAlive : Bool)
    (room' : Room) (pid : Nat)
    (h : joinRoomStep room max_players hostAlive = JoinStepRes.ok room' pid) :
    pid = room.next_client_id
    ∧ room' = ⟨room.next_client_id + 1, room.amount_of_players + 1,
               room.rule_variation⟩ := by
  unfold joinRoomStep at h
  split_ifs at h
  · injection h with h1 h2
    exact ⟨h2.symm, h1.symm⟩

/-- Characterisation of a refused join step: the rule variation is
untouched and the id counter never decreases. -/
theorem joinRoomStep_refuse_spec (room : Room) (max_players : Nat) (hostAlive : Bool)
    (room' : Room) (s : Bool) (why : JoinRefusal)
    (h : joinRoomStep room max_players hostAlive = JoinStepRes.refuse room' s why) :
    room'.rule_variation = room.rule_variation
    ∧ room.next_client_id ≤ room'.next_client_id
    ∧ room.amount_of_players = room'.amount_of_players := by
  unfold joinRoomStep at h
  split_ifs at h <;> injection h with h1 h2 h3 <;> subst h1 <;> simp

/-- A client handshake never changes the rule variation stored under any
key of the rooms map. -/
theorem process_handshake_client_preserves_rv (rooms : List (String × Room))
    (key room_id game_id : String) (rv max_players : Nat) (hostAlive : Bool)
    (key2 : String) :
    Option.map Room.rule_variation
      (lookupRoom (process_handshake_client rooms key room_id game_id rv
          max_players hostAlive).rooms key2)
    = Option.map Room.rule_variation (lookupRoom rooms key2) := by
  cases hfind : lookupRoom rooms key with
  | none => simp [process_handshake_client, hfind]
  | some room =>
    rcases hstep : joinRoomStep room max_players hostAlive with ⟨room', s, why⟩ | ⟨room', pid⟩
    · rcases why with _ | _ | _
      · simp [process_handshake_client, hfind, hstep]
      · simp [process_handshake_client, hfind, hstep]
      · simp only [process_handshake_client, hfind, hstep]
        by_cases hk : key2 = key
        · subst hk
          rw [lookupRoom_updateRoom_self _ _ room _ hfind, hfind]
          simp [(joinRoomStep_refuse_spec _ _ _ _ _ _ hstep).1]
        · rw [lookupRoom_updateRoom_other _ _ _ _ hk]
    · simp only [process_handshake_client, hfind, hstep]
      by_cases hk : key2 = key
      · subst hk
        rw [lookupRoom_updateRoom_self _ _ room _ hfind, hfind]
        have hspec := (joinRoomStep_ok_spec _ _ _ _ _ hstep).2
        simp [hspec]
      · rw [lookupRoom_updateRoom_other _ _ _ _ hk]

/-- The rule-variation field of the `HAND_SHAKE_RESPONSE` frame (octets 3
and 4, big-endian) decodes to the encoded 16-bit value. -/
theorem inform_frame_rv (pid rv : Nat) (h : rv < 65536) :
    getU16 ((inform_client_of_connection pid rv).getD 3 0)
           ((inform_client_of_connection pid rv).getD 4 0) = rv := by
  have hdiv : rv / 256 < 256 := Nat.div_lt_of_lt_mul (by omega)
  simp [inform_client_of_connection, pushU16, getU16, Nat.mod_eq_of_lt hdiv]
  omega

end Multiplayer

namespace Multiplayer

/-- C4 — Rule-variation round trip: creating a room stores the host's
requested rule variation and answers the host with exactly that value
(decodable from the response frame); any client that successfully joins a
room receives the room's stored rule variation — not the value in its own
request — and joins never change any room's stored rule variation. -/
theorem rule_variation_roundtrip_c4
    (roomsA roomsB : List (String × Room)) (keyA keyB key2 ridA gidA ridB gidB : String)
    (rv rvReq max_players pid rvOut : Nat) (hostAlive : Bool) (room : Room)
    (hnone : lookupRoom roomsA keyA = none)
    (hrv : rv < 65536)
    (hfind : lookupRoom roomsB keyB = some room)
    (hrv2 : room.rule_variation < 65536)
    (hres : (process_handshake_client roomsB keyB ridB gidB rvReq max_players
        hostAlive).result = some (pid, rvOut)) :
    (process_handshake_server roomsA keyA ridA gidA rv).result = some (0, rv)
    ∧ lookupRoom (process_handshake_server roomsA keyA ridA gidA rv).rooms keyA
        = some ⟨1, 1, rv⟩
    ∧ getU16 ((inform_client_of_connection 0 rv).getD 3 0)
             ((inform_client_of_connection 0 rv).getD 4 0) = rv
    ∧ rvOut = room.rule_variation
    ∧ getU16 ((inform_client_of_connection pid rvOut).getD 3 0)
             ((inform_client_of_connection pid rvOut).getD 4 0) = room.rule_variation
    ∧ Option.map Room.rule_variation
        (lookupRoom (process_handshake_client roomsB keyB ridB gidB rvReq
            max_players hostAlive).rooms key2)
        = Option.map Room.rule_variation (lookupRoom roomsB key2) := by
  have hout : rvOut = room.rule_variation := by
    rcases hstep : joinRoomStep room max_players hostAlive with ⟨room', s, why⟩ | ⟨room', pid'⟩
    · rcases why with _ | _ | _ <;>
        simp [process_handshake_client, hfind, hstep] at hres
    · simp [process_handshake_client, hfind, hstep] at hres
      exact hres.2.symm
  refine ⟨?_, ?_, inform_frame_rv 0 rv hrv, hout, ?_, ?_⟩
  · simp [process_handshake_server, hnone]
  · simp [process_handshake_server, hnone, lookupRoom_cons]
  · rw [hout]
    exact inform_frame_rv pid room.rule_variation hrv2
  · exact process_handshake_client_preserves_rv roomsB keyB ridB gidB rvReq
      max_players hostAlive key2

/-- Concrete instance of the rule-variation round trip: the host creates
a room with variation 7, a client then joins asking for variation 9. -/
theorem rule_variation_roundtrip_c4_witness :
    (process_handshake_server [] "k" "r" "g" 7).result = some (0, 7)
    ∧ lookupRoom (process_handshake_server [] "k" "r" "g" 7).rooms "k" = some ⟨1, 1, 7⟩
    ∧ getU16 ((inform_client_of_connection 0 7).getD 3 0)
             ((inform_client_of_connection 0 7).getD 4 0) = 7
    ∧ 7 = (Room.mk 1 1 7).rule_variation
    ∧ getU16 ((inform_client_of_connection 1 7).getD 3 0)
             ((inform_client_of_connection 1 7).getD 4 0) = (Room.mk 1 1 7).rule_variation
    ∧ Option.map Room.rule_variation
        (lookupRoom (process_handshake_client [("k", ⟨1, 1, 7⟩)] "k" "r" "g" 9 0 true).rooms "k")
        = Option.map Room.rule_variation (lookupRoom [("k", ⟨1, 1, 7⟩)] "k") :=
  rule_variation_roundtrip_c4 [] [("k", ⟨1, 1, 7⟩)] "k" "k" "k" "r" "g" "r" "g"
    7 9 0 1 7 true ⟨1, 1, 7⟩ (by rfl) (by decide) (by rfl) (by decide) (by rfl)

end Multiplayer

namespace Multiplayer

/-- A sequence of join attempts against one room: each attempt carries
the game's `max_players` and whether the host inbox was still alive.
Returns the final room and the player ids assigned to successful
joiners, in order. -/
def joinTrace (room : Room) : List (Nat × Bool) → Room × List Nat
  | [] => (room, [])
  | a :: as =>
    match joinRoomStep room a.1 a.2 with
    | JoinStepRes.ok room' pid =>
      ((joinTrace room' as).1, pid :: (joinTrace room' as).2)
    | JoinStepRes.refuse room' _ _ => joinTrace room' as

/-- Every id assigned along a trace is at least the starting
`next_client_id`. -/
theorem joinTrace_ids_lb (as : List (Nat × Bool)) (room : Room) :
    ∀ i ∈ (joinTrace room as).2, room.next_client_id ≤ i := by
  induction as generalizing room with
  | nil => intro i hi; simp [joinTrace] at hi
  | cons a as ih =>
    intro i hi
    rcases hstep : joinRoomStep room a.1 a.2 with ⟨room', s, why⟩ | ⟨room', pid⟩
    · rw [joinTrace] at hi
      rw [hstep] at hi
      exact le_trans (joinRoomStep_refuse_spec _ _ _ _ _ _ hstep).2.1 (ih room' i hi)
    · rw [joinTrace] at hi
      rw [hstep] at hi
      obtain ⟨hpid, hroom⟩ := joinRoomStep_ok_spec _ _ _ _ _ hstep
      rcases List.mem_cons.mp hi with rfl | hi'
      · omega
      · have := ih room' i hi'
        rw [hroom] at this
        simp at this
        omega

/-- The ids assigned along a trace are strictly increasing. -/
theorem joinTrace_chain (as : List (Nat × Bool)) (room : Room) :
    List.Chain' (· < ·) (joinTrace room as).2 := by
  induction as generalizing room with
  | nil => simp [joinTrace]
  | cons a as ih =>
    rcases hstep : joinRoomStep room a.1 a.2 with ⟨room', s, why⟩ | ⟨room', pid⟩
    · rw [joinTrace, hstep]
      exact ih room'
    · rw [joinTrace, hstep]
      refine List.chain'_cons'.mpr ⟨?_, ih room'⟩
      intro y hy
      have hymem : y ∈ (joinTrace room' as).2 := List.mem_of_mem_head? hy
      have hylb := joinTrace_ids_lb as room' y hymem
      obtain ⟨hpid, hroom⟩ := joinRoomStep_ok_spec _ _ _ _ _ hstep
      rw [hroom] at hylb
      simp at hylb
      omega

/-- A fully successful run of joins on an unlimited game, starting from a
fresh room with `next_client_id = k`, assigns exactly the ids
`k, k+1, …, k+n-1`. -/
theorem joinTrace_all_ok (n : Nat) (k amt rvv : Nat) (h : k + n ≤ 32701) :
    (joinTrace ⟨k, amt, rvv⟩ (List.replicate n (0, true))).2 = List.range' k n := by
  induction n generalizing k amt with
  | zero => simp [joinTrace]
  | succ n ih =>
    have hstep : joinRoomStep ⟨k, amt, rvv⟩ 0 true
        = JoinStepRes.ok ⟨k + 1, amt + 1, rvv⟩ k := by
      have hk : ¬ k > 32700 := by omega
      simp [joinRoomStep, hk]
    rw [List.replicate_succ, joinTrace, hstep]
    show k :: (joinTrace ⟨k + 1, amt + 1, rvv⟩ (List.replicate n (0, true))).2
        = List.range' k (n + 1)
    rw [ih (k + 1) (amt + 1) (by omega), List.range'_succ]

/-- When the id counter is exhausted, a join step refuses (as room-full
or id-exhaustion, whichever check fires first) and leaves the room
unchanged. -/
theorem joinRoomStep_exhausted (room : Room) (m : Nat) (a : Bool)
    (hex : room.next_client_id > 32700) :
    joinRoomStep room m a = JoinStepRes.refuse room false JoinRefusal.roomFull
    ∨ joinRoomStep room m a = JoinStepRes.refuse room false JoinRefusal.idsExhausted := by
  unfold joinRoomStep
  split_ifs with h1
  · exact Or.inl rfl
  · exact Or.inr rfl

/-- Did the relay answer with exactly a `SERVER_ERROR` frame followed by
a close frame? -/
def isErrorClose (msgs : List JoinerOut) : Bool :=
  match msgs with
  | [JoinerOut.serverErrorMsg _, JoinerOut.closeMsg] => true
  | _ => false

end Multiplayer

namespace Multiplayer

/-- C5 — Player-id monotonicity and bound: a successful join assigns the
room's current `next_client_id` and increments it; along any sequence of
join attempts the assigned ids are strictly increasing and never repeat;
ids assigned from a fresh room (counter 1) are all at least 1, so the
host's id 0 is never reassigned, and an all-successful run from a fresh
room yields exactly 1, 2, …, n; a join attempted while the counter
exceeds 32700 is refused with a `SERVER_ERROR` frame and a close frame,
assigns no id, and leaves the rooms map unchanged. -/
theorem player_id_monotonic_c5
    (room roomOk : Room) (pid m : Nat) (alive : Bool)
    (as : List (Nat × Bool)) (amt rvv n : Nat)
    (rooms : List (String × Room)) (key rid gid : String)
    (rvReq max2 : Nat) (alive2 : Bool) (roomEx : Room)
    (hok : joinRoomStep room m alive = JoinStepRes.ok roomOk pid)
    (hn : n ≤ 32700)
    (hfind : lookupRoom rooms key = some roomEx)
    (hex : roomEx.next_client_id > 32700) :
    pid = room.next_client_id
    ∧ roomOk.next_client_id = room.next_client_id + 1
    ∧ List.Chain' (· < ·) (joinTrace room as).2
    ∧ (joinTrace room as).2.Nodup
    ∧ (joinTrace ⟨1, amt, rvv⟩ as).2.all (fun i => 1 ≤ i) = true
    ∧ (joinTrace ⟨1, amt, rvv⟩ (List.replicate n (0, true))).2 = List.range' 1 n
    ∧ (process_handshake_client rooms key rid gid rvReq max2 alive2).result = none
    ∧ (process_handshake_client rooms key rid gid rvReq max2 alive2).rooms = rooms
    ∧ isErrorClose
        (process_handshake_client rooms key rid gid rvReq max2 alive2).joinerMsgs
        = true := by
  obtain ⟨hpid, hroom⟩ := joinRoomStep_ok_spec _ _ _ _ _ hok
  have hchain := joinTrace_chain as room
  refine ⟨hpid, by rw [hroom], hchain, ?_, ?_, ?_, ?_, ?_, ?_⟩
  · exact (List.chain'_iff_pairwise.mp hchain).imp (fun h => Nat.ne_of_lt h)
  · rw [List.all_eq_true]
    intro i hi
    simpa using joinTrace_ids_lb as ⟨1, amt, rvv⟩ i hi
  · exact joinTrace_all_ok n 1 amt rvv (by omega)
  · rcases joinRoomStep_exhausted roomEx max2 alive2 hex with h | h <;>
      simp [process_handshake_client, hfind, h]
  · rcases joinRoomStep_exhausted roomEx max2 alive2 hex with h | h <;>
      simp [process_handshake_client, hfind, h]
  · rcases joinRoomStep_exhausted roomEx max2 alive2 hex with h | h <;>
      simp [process_handshake_client, hfind, h, isErrorClose, send_closing_message]

/-- Concrete instance of the player-id theorem: a join on room counter 5,
a mixed trace of three attempts, a three-join run from a fresh room, and
an exhausted room refusing a join. -/
theorem player_id_monotonic_c5_witness :
    1 = (Room.mk 1 1 0).next_client_id
    ∧ (Room.mk 2 2 0).next_client_id = (Room.mk 1 1 0).next_client_id + 1
    ∧ List.Chain' (· < ·) (joinTrace ⟨1, 1, 0⟩ [(0, true), (0, false), (0, true)]).2
    ∧ (joinTrace ⟨1, 1, 0⟩ [(0, true), (0, false), (0, true)]).2.Nodup
    ∧ (joinTrace ⟨1, 1, 0⟩ [(0, true), (0, false), (0, true)]).2.all (fun i => 1 ≤ i) = true
    ∧ (joinTrace ⟨1, 1, 0⟩ (List.replicate 3 (0, true))).2 = List.range' 1 3
    ∧ (process_handshake_client [("k", ⟨32701, 1, 0⟩)] "k" "r" "g" 0 0 true).result = none
    ∧ (process_handshake_client [("k", ⟨32701, 1, 0⟩)] "k" "r" "g" 0 0 true).rooms
        = [("k", ⟨32701, 1, 0⟩)]
    ∧ isErrorClose
        (process_handshake_client [("k", ⟨32701, 1, 0⟩)] "k" "r" "g" 0 0 true).joinerMsgs
        = true :=
  player_id_monotonic_c5 ⟨1, 1, 0⟩ ⟨2, 2, 0⟩ 1 0 true
    [(0, true), (0, false), (0, true)] 1 0 3
    [("k", ⟨32701, 1, 0⟩)] "k" "r" "g" 0 0 true ⟨32701, 1, 0⟩
    (by decide) (by decide) (by rfl) (by decide)

end Multiplayer

namespace Multiplayer

/-! ### Session transport, host tick
(`update_server`, src/backbone-lib/src/middle_layer.rs lines 349-471;
duplicated in src/backbone-lib/src/transport_layer.rs lines 607-729).

The generic backend trait (src/backbone-lib/src/traits.rs) becomes a
structure of pure state-transition functions over an abstract backend
state `B`.  The communicator's sends are recorded in order as `SentMsg`
values; `server_receive_commands_for` is an `Except`-valued input. -/

/-- `BackendCommand` (src/backbone-lib/src/traits.rs). -/
inductive BackendCommand (Delta : Type) where
  | Delta (delta : Delta)
  | ResetViewState
  | KickPlayer (player : Nat)
  | SetTimer (timer_id : Nat) (duration : ℚ)
  | CancelTimer (timer_id : Nat)
  | TerminateRoom
deriving Repr, DecidableEq

/-- `ToServerCommands` (src/backbone-lib/src/web_socket_interface.rs). -/
inductive ToServerCommands (Rpc : Type) where
  | ClientJoin (id : Nat)
  | ClientLeft (id : Nat)
  | Rpc (id : Nat) (payload : Rpc)
deriving Repr, DecidableEq

/-- `ViewStateUpdate` (src/backbone-lib/src/middle_layer.rs). -/
inductive ViewStateUpdate (ViewState Delta : Type) where
  | Full (v : ViewState)
  | Incremental (d : Delta)
deriving Repr, DecidableEq

/-- One outbound communicator call made during a host tick. -/
inductive SentMsg (Delta ViewState : Type) where
  /-- `server_kick_player`: a `CLIENT_GETS_KICKED` frame. -/
  | kick (player : Nat)
  /-- `server_send_delta_info`: one `DELTA_UPDATE` frame carrying the
  concatenation of the listed deltas. -/
  | deltaInfo (ds : List Delta)
  /-- `server_send_full_sync`: one `FULL_UPDATE` frame. -/
  | fullSync (v : ViewState)
  /-- `server_send_reset`: one `RESET` frame. -/
  | resetMsg (v : ViewState)
  /-- `disconnect`: `SERVER_DISCONNECTS` (host) or
  `CLIENT_DISCONNECTS_SELF` (client). -/
  | disconnectMsg (asServer : Bool)
deriving Repr, DecidableEq

/-- The backend trait `BackEndArchitecture` as pure transition functions
on an abstract backend state. -/
structure BackEndArchitecture (Rpc Delta ViewState B : Type) where
  player_arrival : B → Nat → B
  player_departure : B → Nat → B
  inform_rpc : B → Nat → Rpc → B
  timer_triggered : B → Nat → B
  get_view_state : B → ViewState
  drain_commands : B → List (BackendCommand Delta) × B

/-- Keep predicate of step 5 of the host tick: the commands that survive
the timer/kick partition (`Delta` and `ResetViewState`). -/
def keepCmd {Delta : Type} : BackendCommand Delta → Bool
  | BackendCommand.Delta _ => true
  | BackendCommand.ResetViewState => true
  | _ => false

/-- Is a retained command `ResetViewState`? -/
def isResetCmd {Delta : Type} : BackendCommand Delta → Bool
  | BackendCommand.ResetViewState => true
  | _ => false

/-- Step 5 of the host tick: walk the drained commands, installing and
cancelling timers, emitting kick frames (only while remote players
exist), stopping at `TerminateRoom` (which sends the disconnect frame),
and retaining the rest.  Returns
`(terminated?, timer, sent so far, retained commands)`. -/
def drainLoop {Delta ViewState : Type} (remote : Nat) :
    List (BackendCommand Delta) → Timer → List (SentMsg Delta ViewState) →
    Bool × Timer × List (SentMsg Delta ViewState) × List (BackendCommand Delta)
  | [], timer, sent => (false, timer, sent, [])
  | c :: cs, timer, sent =>
    match c with
    | BackendCommand.TerminateRoom =>
      (true, timer, sent ++ [SentMsg.disconnectMsg true], [])
    | BackendCommand.SetTimer timer_id duration =>
      drainLoop remote cs (Timer.start_timer timer timer_id duration) sent
    | BackendCommand.CancelTimer timer_id =>
      drainLoop remote cs (Timer.cancel_timer timer timer_id) sent
    | BackendCommand.KickPlayer player =>
      drainLoop remote cs timer
        (sent ++ if remote > 0 then [SentMsg.kick player] else [])
    | c =>
      match drainLoop remote cs timer sent with
      | (t, tm, s, r) => (t, tm, s, c :: r)

/-- Steps 1-2 of the host tick: fire elapsed timers into the backend,
then feed the local RPC queue to the backend as player 0. -/
def preInboxBackend {Rpc Delta ViewState B : Type}
    (ops : BackEndArchitecture Rpc Delta ViewState B) (delta_time : ℚ)
    (back_end : B) (timer : Timer) (rpc_que : List Rpc) : B :=
  let fired := (Timer.update_and_get_list timer delta_time).1
  rpc_que.foldl (fun b r => ops.inform_rpc b 0 r)
    (fired.foldl (fun b i => ops.timer_triggered b i) back_end)

/-- Step 3 of the host tick: replay the received relay messages into the
backend, tracking the remote-player count and the `client_joined` flag.
Returns `(backend, remote count, client_joined)`. -/
def postInbox {Rpc Delta ViewState B : Type}
    (ops : BackEndArchitecture Rpc Delta ViewState B)
    (back_end : B) (remote : Nat) (msgs : List (ToServerCommands Rpc)) :
    B × Nat × Bool :=
  msgs.foldl (fun acc m =>
    match m with
    | ToServerCommands.ClientJoin i => (ops.player_arrival acc.1 i, acc.2.1 + 1, true)
    | ToServerCommands.ClientLeft i => (ops.player_departure acc.1 i, acc.2.1 - 1, acc.2.2)
    | ToServerCommands.Rpc i p => (ops.inform_rpc acc.1 i p, acc.2.1, acc.2.2))
    (back_end, remote, false)

/-- The per-tick remote-player count and `client_joined` flag as a pure
function of the inbox (the backend does not influence them). -/
def inboxCounters {Rpc : Type} (remote : Nat) (joined : Bool)
    (msgs : List (ToServerCommands Rpc)) : Nat × Bool :=
  msgs.foldl (fun acc m =>
    match m with
    | ToServerCommands.ClientJoin _ => (acc.1 + 1, true)
    | ToServerCommands.ClientLeft _ => (acc.1 - 1, acc.2)
    | ToServerCommands.Rpc _ _ => acc)
    (remote, joined)

/-- The commands drained from the backend in step 4 of the tick, as a
function of the tick's inputs. -/
def drainedCmds {Rpc Delta ViewState B : Type}
    (ops : BackEndArchitecture Rpc Delta ViewState B) (delta_time : ℚ)
    (back_end : B) (timer : Timer) (remote : Nat) (rpc_que : List Rpc)
    (msgs : List (ToServerCommands Rpc)) : List (BackendCommand Delta) :=
  (ops.drain_commands
    (postInbox ops (preInboxBackend ops delta_time back_end timer rpc_que)
      remote msgs).1).1

/-- The view state queried after the drain (used by the reset broadcast
and the post-tick full sync). -/
def postDrainView {Rpc Delta ViewState B : Type}
    (ops : BackEndArchitecture Rpc Delta ViewState B) (delta_time : ℚ)
    (back_end : B) (timer : Timer) (remote : Nat) (rpc_que : List Rpc)
    (msgs : List (ToServerCommands Rpc)) : ViewState :=
  ops.get_view_state
    (ops.drain_commands
      (postInbox ops (preInboxBackend ops delta_time back_end timer rpc_que)
        remote msgs).1).2

/-- Step 5 of the tick as a function of the tick inputs: the command
loop run on the drained commands with the post-inbox remote count, the
ticked timer wheel, and an empty sent list. -/
def tickDrainLoop {Rpc Delta ViewState B : Type}
    (ops : BackEndArchitecture Rpc Delta ViewState B) (delta_time : ℚ)
    (back_end : B) (timer : Timer) (remote : Nat) (rpc_que : List Rpc)
    (msgs : List (ToServerCommands Rpc)) :
    Bool × Timer × List (SentMsg Delta ViewState) × List (BackendCommand Delta) :=
  drainLoop
    (postInbox ops (preInboxBackend ops delta_time back_end timer rpc_que)
      remote msgs).2.1
    (drainedCmds ops delta_time back_end timer remote rpc_que msgs)
    (Timer.update_and_get_list timer delta_time).2 []

/-- Everything `update_server` leaves behind: the surviving server
context, both queues, the communicator sends of the tick in order, and
the error string of a `Disconnected` transition if one happened. -/
structure ServerTickResult (Rpc Delta ViewState B : Type) where
  back_end : Option B
  timer : Timer
  remote_players : Nat
  state_info_que : List (ViewStateUpdate ViewState Delta)
  rpc_que : List Rpc
  sent : List (SentMsg Delta ViewState)
  error : Option String

/-- `update_server` (src/backbone-lib/src/middle_layer.rs lines 349-471):
one host tick over explicit state, with the relay read given as an
`Except` input.  The numbered steps of the source are the named phase
functions: step 1-2 `preInboxBackend` (plus the timer tick), step 3
`postInbox`, step 4 `drainedCmds`, step 5 `tickDrainLoop`, steps 6-7 the
branches below. -/
def update_server {Rpc Delta ViewState B : Type}
    (ops : BackEndArchitecture Rpc Delta ViewState B) (delta_time : ℚ)
    (back_end : B) (timer : Timer) (remote : Nat)
    (state_info_que : List (ViewStateUpdate ViewState Delta))
    (rpc_que : List Rpc)
    (inbox : Except String (List (ToServerCommands Rpc))) :
    ServerTickResult Rpc Delta ViewState B :=
  match inbox with
  | Except.error e =>
    ⟨some (preInboxBackend ops delta_time back_end timer rpc_que),
     (Timer.update_and_get_list timer delta_time).2, remote,
     state_info_que, [], [], some e⟩
  | Except.ok msgs =>
    let stepped := postInbox ops
      (preInboxBackend ops delta_time back_end timer rpc_que) remote msgs
    let drained := ops.drain_commands stepped.1
    let dl := tickDrainLoop ops delta_time back_end timer remote rpc_que msgs
    if dl.1 then
      ⟨none, dl.2.1, stepped.2.1, state_info_que, [], dl.2.2.1,
       some "Critical player left."⟩
    else if dl.2.2.2.any isResetCmd then
      ⟨some drained.2, dl.2.1, stepped.2.1,
        state_info_que ++ [ViewStateUpdate.Full (ops.get_view_state drained.2)], [],
        dl.2.2.1
          ++ (if stepped.2.1 > 0
              then [SentMsg.resetMsg (ops.get_view_state drained.2)] else []),
        none⟩
    else
      let ds := dl.2.2.2.filterMap (fun c =>
        match c with | BackendCommand.Delta d => some d | _ => none)
      let que2 := state_info_que ++ ds.map ViewStateUpdate.Incremental
      if stepped.2.1 = 0 then
        ⟨some drained.2, dl.2.1, stepped.2.1, que2, [], dl.2.2.1, none⟩
      else
        ⟨some drained.2, dl.2.1, stepped.2.1, que2, [],
          dl.2.2.1
            ++ (if ds.isEmpty then [] else [SentMsg.deltaInfo ds])
            ++ (if stepped.2.2
                then [SentMsg.fullSync (ops.get_view_state drained.2)] else []),
          none⟩

end Multiplayer

namespace Multiplayer

/-- Is a sent message a `DELTA_UPDATE` frame? -/
def isDeltaMsg {Delta ViewState : Type} : SentMsg Delta ViewState → Bool
  | SentMsg.deltaInfo _ => true
  | _ => false

/-- Is a sent message a `RESET` frame? -/
def isResetMsg {Delta ViewState : Type} : SentMsg Delta ViewState → Bool
  | SentMsg.resetMsg _ => true
  | _ => false

/-- Is a sent message a `FULL_UPDATE` frame? -/
def isFullMsg {Delta ViewState : Type} : SentMsg Delta ViewState → Bool
  | SentMsg.fullSync _ => true
  | _ => false

/-- The command loop terminates the tick exactly when a `TerminateRoom`
command was drained. -/
theorem drainLoop_terminated_iff {Delta ViewState : Type} (remote : Nat)
    (cmds : List (BackendCommand Delta)) (timer : Timer)
    (sent : List (SentMsg Delta ViewState)) :
    (drainLoop remote cmds timer sent).1 = true
      ↔ BackendCommand.TerminateRoom ∈ cmds := by
  induction cmds generalizing timer sent with
  | nil => simp [drainLoop]
  | cons c cs ih =>
    cases c with
    | Delta d =>
      rw [show @drainLoop Delta ViewState remote
          (BackendCommand.Delta d :: cs) timer sent
        = (match @drainLoop Delta ViewState remote cs timer sent with
           | (t, tm, s, r) => (t, tm, s, BackendCommand.Delta d :: r)) from rfl]
      rcases hdl : @drainLoop Delta ViewState remote cs timer sent with ⟨t, tm, s, r⟩
      have := ih timer sent
      rw [hdl] at this
      simpa using this
    | ResetViewState =>
      rw [show @drainLoop Delta ViewState remote
          (BackendCommand.ResetViewState :: cs) timer sent
        = (match @drainLoop Delta ViewState remote cs timer sent with
           | (t, tm, s, r) => (t, tm, s, BackendCommand.ResetViewState :: r)) from rfl]
      rcases hdl : @drainLoop Delta ViewState remote cs timer sent with ⟨t, tm, s, r⟩
      have := ih timer sent
      rw [hdl] at this
      simpa using this
    | KickPlayer p => simpa [drainLoop] using ih timer _
    | SetTimer i d => simpa [drainLoop] using ih _ sent
    | CancelTimer i => simpa [drainLoop] using ih _ sent
    | TerminateRoom => simp [drainLoop]

/-- Without a `TerminateRoom`, the command loop retains exactly the
`Delta` and `ResetViewState` commands, in order. -/
theorem drainLoop_retained {Delta ViewState : Type} (remote : Nat)
    (cmds : List (BackendCommand Delta)) (timer : Timer)
    (sent : List (SentMsg Delta ViewState))
    (h : BackendCommand.TerminateRoom ∉ cmds) :
    (drainLoop remote cmds timer sent).2.2.2 = cmds.filter keepCmd := by
  induction cmds generalizing timer sent with
  | nil => simp [drainLoop]
  | cons c cs ih =>
    have hc : BackendCommand.TerminateRoom ∉ cs := fun hm => h (List.mem_cons_of_mem _ hm)
    cases c with
    | Delta d =>
      rw [show @drainLoop Delta ViewState remote
          (BackendCommand.Delta d :: cs) timer sent
        = (match @drainLoop Delta ViewState remote cs timer sent with
           | (t, tm, s, r) => (t, tm, s, BackendCommand.Delta d :: r)) from rfl]
      rcases hdl : @drainLoop Delta ViewState remote cs timer sent with ⟨t, tm, s, r⟩
      have := ih timer sent hc
      rw [hdl] at this
      simpa [keepCmd] using this
    | ResetViewState =>
      rw [show @drainLoop Delta ViewState remote
          (BackendCommand.ResetViewState :: cs) timer sent
        = (match @drainLoop Delta ViewState remote cs timer sent with
           | (t, tm, s, r) => (t, tm, s, BackendCommand.ResetViewState :: r)) from rfl]
      rcases hdl : @drainLoop Delta ViewState remote cs timer sent with ⟨t, tm, s, r⟩
      have := ih timer sent hc
      rw [hdl] at this
      simpa [keepCmd] using this
    | KickPlayer p => simpa [drainLoop, keepCmd] using ih timer _ hc
    | SetTimer i d => simpa [drainLoop, keepCmd] using ih _ sent hc
    | CancelTimer i => simpa [drainLoop, keepCmd] using ih _ sent hc
    | TerminateRoom => exact absurd (List.mem_cons_self _ _) h

/-- The command loop only ever appends kick frames (and, on termination,
the disconnect frame) to the sent list: counts of any other message kind
pass through. -/
theorem drainLoop_sent_countP {Delta ViewState : Type} (remote : Nat)
    (cmds : List (BackendCommand Delta)) (timer : Timer)
    (sent : List (SentMsg Delta ViewState)) (p : SentMsg Delta ViewState → Bool)
    (hk : ∀ pl, p (SentMsg.kick pl) = false)
    (hd : p (SentMsg.disconnectMsg true) = false) :
    (drainLoop remote cmds timer sent).2.2.1.countP p = sent.countP p := by
  induction cmds generalizing timer sent with
  | nil => simp [drainLoop]
  | cons c cs ih =>
    cases c with
    | Delta d =>
      rw [show @drainLoop Delta ViewState remote
          (BackendCommand.Delta d :: cs) timer sent
        = (match @drainLoop Delta ViewState remote cs timer sent with
           | (t, tm, s, r) => (t, tm, s, BackendCommand.Delta d :: r)) from rfl]
      rcases hdl : @drainLoop Delta ViewState remote cs timer sent with ⟨t, tm, s, r⟩
      have := ih timer sent
      rw [hdl] at this
      simpa using this
    | ResetViewState =>
      rw [show @drainLoop Delta ViewState remote
          (BackendCommand.ResetViewState :: cs) timer sent
        = (match @drainLoop Delta ViewState remote cs timer sent with
           | (t, tm, s, r) => (t, tm, s, BackendCommand.ResetViewState :: r)) from rfl]
      rcases hdl : @drainLoop Delta ViewState remote cs timer sent with ⟨t, tm, s, r⟩
      have := ih timer sent
      rw [hdl] at this
      simpa using this
    | KickPlayer pl =>
      rw [show @drainLoop Delta ViewState remote
          (BackendCommand.KickPlayer pl :: cs) timer sent
        = drainLoop remote cs timer
            (sent ++ if remote > 0 then [SentMsg.kick pl] else []) from rfl]
      rw [ih timer _]
      by_cases hrem : remote > 0 <;>
        simp [hrem, List.countP_append, List.countP_cons, hk]
    | SetTimer i d => simpa [drainLoop] using ih _ sent
    | CancelTimer i => simpa [drainLoop] using ih _ sent
    | TerminateRoom =>
      simp [drainLoop, List.countP_append, List.countP_cons, hd]

/-- The remote-count/`client_joined` components of `postInbox` do not
depend on the backend. -/
theorem postInbox_counters {Rpc Delta ViewState B : Type}
    (ops : BackEndArchitecture Rpc Delta ViewState B)
    (msgs : List (ToServerCommands Rpc)) (back_end : B) (remote : Nat) :
    (postInbox ops back_end remote msgs).2 = inboxCounters remote false msgs := by
  suffices h : ∀ (b : B) (r : Nat) (j : Bool),
      (msgs.foldl (fun acc m =>
        match m with
        | ToServerCommands.ClientJoin i => (ops.player_arrival acc.1 i, acc.2.1 + 1, true)
        | ToServerCommands.ClientLeft i => (ops.player_departure acc.1 i, acc.2.1 - 1, acc.2.2)
        | ToServerCommands.Rpc i p => (ops.inform_rpc acc.1 i p, acc.2.1, acc.2.2))
        (b, r, j)).2 = inboxCounters r j msgs by
    exact h back_end remote false
  induction msgs with
  | nil => intro b r j; rfl
  | cons m ms ih =>
    intro b r j
    cases m with
    | ClientJoin i => simpa [inboxCounters, List.foldl_cons] using ih _ _ _
    | ClientLeft i => simpa [inboxCounters, List.foldl_cons] using ih _ _ _
    | Rpc i p => simpa [inboxCounters, List.foldl_cons] using ih _ _ _

end Multiplayer

namespace Multiplayer

/-- C2 (amended) — Reset coalescing: on a host tick with no transport
error whose drained commands contain no `TerminateRoom` and, after
removing the timer/kick/terminate commands, at least one
`ResetViewState`: the tick stays connected, sends no `DELTA_UPDATE`,
sends exactly one `RESET` when the post-tick remote count is positive
(and none otherwise) carrying the post-drain view state as the last
frame of the tick, enqueues exactly one local `Full` of that view state,
and discards every `Delta` of the tick. -/
theorem reset_coalescing_c2 {Rpc Delta ViewState B : Type}
    (ops : BackEndArchitecture Rpc Delta ViewState B) (dt : ℚ) (b : B)
    (timer : Timer) (remote : Nat)
    (que : List (ViewStateUpdate ViewState Delta)) (rpcs : List Rpc)
    (msgs : List (ToServerCommands Rpc))
    (hnoterm : BackendCommand.TerminateRoom
        ∉ drainedCmds ops dt b timer remote rpcs msgs)
    (hreset : ((drainedCmds ops dt b timer remote rpcs msgs).filter keepCmd).any
        isResetCmd = true) :
    (update_server ops dt b timer remote que rpcs (Except.ok msgs)).error = none
    ∧ (update_server ops dt b timer remote que rpcs (Except.ok msgs)).sent.countP
        isDeltaMsg = 0
    ∧ (update_server ops dt b timer remote que rpcs (Except.ok msgs)).sent.countP
        isResetMsg = (if 0 < (inboxCounters remote false msgs).1 then 1 else 0)
    ∧ (0 < (inboxCounters remote false msgs).1 →
        (update_server ops dt b timer remote que rpcs (Except.ok msgs)).sent.getLast?
          = some (SentMsg.resetMsg (postDrainView ops dt b timer remote rpcs msgs)))
    ∧ (update_server ops dt b timer remote que rpcs (Except.ok msgs)).state_info_que
        = que ++ [ViewStateUpdate.Full (postDrainView ops dt b timer remote rpcs msgs)] := by
  have hterm : (@tickDrainLoop Rpc Delta ViewState B ops dt b timer remote rpcs msgs).1 = false := by
    cases hcase : (@tickDrainLoop Rpc Delta ViewState B ops dt b timer remote rpcs msgs).1
    · rfl
    · rw [tickDrainLoop] at hcase
      exact absurd ((drainLoop_terminated_iff _ _ _ _).mp hcase) hnoterm
  have hret : (@tickDrainLoop Rpc Delta ViewState B ops dt b timer remote rpcs msgs).2.2.2
      = (drainedCmds ops dt b timer remote rpcs msgs).filter keepCmd := by
    rw [tickDrainLoop]
    exact drainLoop_retained _ _ _ _ hnoterm
  have hany : ((@tickDrainLoop Rpc Delta ViewState B ops dt b timer remote rpcs msgs).2.2.2).any
      isResetCmd = true := by rw [hret]; exact hreset
  have hsentD : (@tickDrainLoop Rpc Delta ViewState B ops dt b timer remote rpcs msgs).2.2.1.countP
      isDeltaMsg = 0 := by
    rw [tickDrainLoop, drainLoop_sent_countP _ _ _ _ isDeltaMsg (fun _ => rfl) rfl]
    rfl
  have hsentR : (@tickDrainLoop Rpc Delta ViewState B ops dt b timer remote rpcs msgs).2.2.1.countP
      isResetMsg = 0 := by
    rw [tickDrainLoop, drainLoop_sent_countP _ _ _ _ isResetMsg (fun _ => rfl) rfl]
    rfl
  have hrem : (postInbox ops (preInboxBackend ops dt b timer rpcs) remote msgs).2.1
      = (inboxCounters remote false msgs).1 := by
    rw [postInbox_counters]
  refine ⟨?_, ?_, ?_, ?_, ?_⟩
  · simp [update_server, hterm, hany]
  · simp [update_server, hterm, hany, List.countP_append, hsentD, isDeltaMsg]
  · simp only [update_server, hterm, Bool.false_eq_true, if_false, hany, if_true,
      List.countP_append, hsentR, hrem]
    by_cases h : 0 < (@inboxCounters Rpc remote false msgs).1 <;>
      simp [h, List.countP_cons, isResetMsg]
  · intro h
    rw [← hrem] at h
    simp only [update_server, hterm, Bool.false_eq_true, if_false, hany, if_true]
    rw [if_pos h, List.getLast?_concat]
    rfl
  · simp [update_server, hterm, hany, postDrainView, drainedCmds]

end Multiplayer

namespace Multiplayer

/-- A trivial concrete backend over `Unit` payloads whose drain always
yields a fixed command list; used to instantiate tick theorems. -/
def constBackend (cmds : List (BackendCommand Unit)) :
    BackEndArchitecture Unit Unit Unit Unit :=
  ⟨fun b _ => b, fun b _ => b, fun b _ _ => b, fun b _ => b, fun _ => (),
   fun _ => (cmds, ())⟩

/-- C2 fails as stated when a `TerminateRoom` accompanies the
`ResetViewState`: the drained commands minus timer/kick/terminate contain
a `ResetViewState` and the remote count is positive, yet the tick sends
no `RESET` frame and enqueues no local `Full`. -/
theorem reset_coalescing_c2_counterexample :
    ((drainedCmds (constBackend
          [BackendCommand.ResetViewState, BackendCommand.TerminateRoom])
        0 () [] 1 [] []).filter keepCmd).any isResetCmd = true
    ∧ 0 < 1
    ∧ (update_server (constBackend
          [BackendCommand.ResetViewState, BackendCommand.TerminateRoom])
        0 () [] 1 [] [] (Except.ok [])).sent.countP isResetMsg = 0
    ∧ (update_server (constBackend
          [BackendCommand.ResetViewState, BackendCommand.TerminateRoom])
        0 () [] 1 [] [] (Except.ok [])).state_info_que = [] :=
  ⟨rfl, Nat.zero_lt_one, rfl, rfl⟩

/-- Concrete instance of the amended reset coalescing: a tick draining
`Delta, ResetViewState, Delta` with one remote player. -/
theorem reset_coalescing_c2_witness :
    (update_server (constBackend [BackendCommand.Delta (),
        BackendCommand.ResetViewState, BackendCommand.Delta ()])
      0 () [] 1 [] [] (Except.ok [])).error = none
    ∧ (update_server (constBackend [BackendCommand.Delta (),
        BackendCommand.ResetViewState, BackendCommand.Delta ()])
      0 () [] 1 [] [] (Except.ok [])).sent.countP isDeltaMsg = 0
    ∧ (update_server (constBackend [BackendCommand.Delta (),
        BackendCommand.ResetViewState, BackendCommand.Delta ()])
      0 () [] 1 [] [] (Except.ok [])).sent.countP isResetMsg
        = (if 0 < (@inboxCounters Unit 1 false []).1 then 1 else 0)
    ∧ (0 < (@inboxCounters Unit 1 false []).1 →
        (update_server (constBackend [BackendCommand.Delta (),
            BackendCommand.ResetViewState, BackendCommand.Delta ()])
          0 () [] 1 [] [] (Except.ok [])).sent.getLast?
          = some (SentMsg.resetMsg (postDrainView (constBackend [BackendCommand.Delta (),
              BackendCommand.ResetViewState, BackendCommand.Delta ()]) 0 () [] 1 [] [])))
    ∧ (update_server (constBackend [BackendCommand.Delta (),
        BackendCommand.ResetViewState, BackendCommand.Delta ()])
      0 () [] 1 [] [] (Except.ok [])).state_info_que
        = [] ++ [ViewStateUpdate.Full (postDrainView (constBackend [BackendCommand.Delta (),
            BackendCommand.ResetViewState, BackendCommand.Delta ()]) 0 () [] 1 [] [])] :=
  reset_coalescing_c2 (constBackend [BackendCommand.Delta (),
      BackendCommand.ResetViewState, BackendCommand.Delta ()])
    0 () [] 1 [] [] [] (by decide) (by rfl)

end Multiplayer

namespace Multiplayer

/-- The `Delta` payloads retained by step 5 of the tick, in order. -/
def retainedDeltas {Rpc Delta ViewState B : Type}
    (ops : BackEndArchitecture Rpc Delta ViewState B) (delta_time : ℚ)
    (back_end : B) (timer : Timer) (remote : Nat) (rpc_que : List Rpc)
    (msgs : List (ToServerCommands Rpc)) : List Delta :=
  ((drainedCmds ops delta_time back_end timer remote rpc_que msgs).filter
      keepCmd).filterMap
    (fun c => match c with | BackendCommand.Delta d => some d | _ => none)

/-- C7 (amended) — Join triggers full sync: on a host tick with no
transport error, no `TerminateRoom`, no retained `ResetViewState`, with
the `client_joined` flag set and a positive post-tick remote count: the
tick stays connected, sends a `FULL_UPDATE` carrying the post-drain view
state as the very last frame of the tick (hence after any `DELTA_UPDATE`
of the tick), sends exactly one such frame, and enqueues only
`Incremental` updates — no `Full` — in the host's own local queue. -/
theorem join_full_sync_c7 {Rpc Delta ViewState B : Type}
    (ops : BackEndArchitecture Rpc Delta ViewState B) (dt : ℚ) (b : B)
    (timer : Timer) (remote : Nat)
    (que : List (ViewStateUpdate ViewState Delta)) (rpcs : List Rpc)
    (msgs : List (ToServerCommands Rpc))
    (hnoterm : BackendCommand.TerminateRoom
        ∉ drainedCmds ops dt b timer remote rpcs msgs)
    (hnoreset : ((drainedCmds ops dt b timer remote rpcs msgs).filter keepCmd).any
        isResetCmd = false)
    (hjoin : (inboxCounters remote false msgs).2 = true)
    (hremote : 0 < (inboxCounters remote false msgs).1) :
    (update_server ops dt b timer remote que rpcs (Except.ok msgs)).error = none
    ∧ (update_server ops dt b timer remote que rpcs (Except.ok msgs)).sent.getLast?
        = some (SentMsg.fullSync (postDrainView ops dt b timer remote rpcs msgs))
    ∧ (update_server ops dt b timer remote que rpcs (Except.ok msgs)).sent.countP
        isFullMsg = 1
    ∧ (update_server ops dt b timer remote que rpcs (Except.ok msgs)).state_info_que
        = que ++ (retainedDeltas ops dt b timer remote rpcs msgs).map
            ViewStateUpdate.Incremental := by
  have hterm : (@tickDrainLoop Rpc Delta ViewState B ops dt b timer remote rpcs msgs).1 = false := by
    cases hcase : (@tickDrainLoop Rpc Delta ViewState B ops dt b timer remote rpcs msgs).1
    · rfl
    · rw [tickDrainLoop] at hcase
      exact absurd ((drainLoop_terminated_iff _ _ _ _).mp hcase) hnoterm
  have hret : (@tickDrainLoop Rpc Delta ViewState B ops dt b timer remote rpcs msgs).2.2.2
      = (drainedCmds ops dt b timer remote rpcs msgs).filter keepCmd := by
    rw [tickDrainLoop]
    exact drainLoop_retained _ _ _ _ hnoterm
  have hany : ((@tickDrainLoop Rpc Delta ViewState B ops dt b timer remote rpcs msgs).2.2.2).any
      isResetCmd = false := by rw [hret]; exact hnoreset
  have hsentF : (@tickDrainLoop Rpc Delta ViewState B ops dt b timer remote rpcs msgs).2.2.1.countP
      isFullMsg = 0 := by
    rw [tickDrainLoop, drainLoop_sent_countP _ _ _ _ isFullMsg (fun _ => rfl) rfl]
    rfl
  have hcnt : (postInbox ops (preInboxBackend ops dt b timer rpcs) remote msgs).2
      = inboxCounters remote false msgs := postInbox_counters ops msgs _ remote
  have hrem0 : ¬ (postInbox ops (preInboxBackend ops dt b timer rpcs) remote msgs).2.1
      = 0 := by rw [hcnt]; omega
  have hjoined : (postInbox ops (preInboxBackend ops dt b timer rpcs) remote msgs).2.2
      = true := by rw [hcnt]; exact hjoin
  refine ⟨?_, ?_, ?_, ?_⟩
  · simp [update_server, hterm, hany, hrem0]
  · simp only [update_server, hterm, Bool.false_eq_true, if_false, hany, hrem0,
      hjoined, if_true]
    rw [List.getLast?_concat]
    rfl
  · simp only [update_server, hterm, Bool.false_eq_true, if_false, hany, hrem0,
      hjoined, if_true]
    rw [List.countP_append, List.countP_append, hsentF]
    by_cases hde : ((@tickDrainLoop Rpc Delta ViewState B ops dt b timer remote rpcs
        msgs).2.2.2.filterMap (fun c =>
          match c with | BackendCommand.Delta d => some d | _ => none)).isEmpty <;>
      simp [hde, List.countP_cons, isFullMsg]
  · simp only [update_server, hterm, Bool.false_eq_true, if_false, hany, hrem0,
      hjoined, if_true]
    rw [hret]
    rfl

end Multiplayer

namespace Multiplayer

/-- C7 fails as stated when the joiner leaves within the same tick: the
`client_joined` flag is set, there is no transport error, no
`TerminateRoom` and no retained `ResetViewState`, yet — the post-tick
remote count being zero — the tick sends nothing at all, in particular no
`FULL_UPDATE`. -/
theorem join_full_sync_c7_counterexample :
    (@inboxCounters Unit 0 false
        [ToServerCommands.ClientJoin 1, ToServerCommands.ClientLeft 1]).2 = true
    ∧ BackendCommand.TerminateRoom ∉ drainedCmds (constBackend []) 0 () [] 0 []
        [ToServerCommands.ClientJoin 1, ToServerCommands.ClientLeft 1]
    ∧ ((drainedCmds (constBackend []) 0 () [] 0 []
        [ToServerCommands.ClientJoin 1, ToServerCommands.ClientLeft 1]).filter
          keepCmd).any isResetCmd = false
    ∧ (update_server (constBackend []) 0 () [] 0 [] []
        (Except.ok [ToServerCommands.ClientJoin 1,
          ToServerCommands.ClientLeft 1])).error = none
    ∧ (update_server (constBackend []) 0 () [] 0 [] []
        (Except.ok [ToServerCommands.ClientJoin 1,
          ToServerCommands.ClientLeft 1])).sent = [] :=
  ⟨rfl, by decide, rfl, rfl, rfl⟩

/-- Concrete instance of the amended join-full-sync theorem: a tick in
which a client joins while the backend emits one delta. -/
theorem join_full_sync_c7_witness :
    (update_server (constBackend [BackendCommand.Delta ()]) 0 () [] 0 [] []
        (Except.ok [ToServerCommands.ClientJoin 1])).error = none
    ∧ (update_server (constBackend [BackendCommand.Delta ()]) 0 () [] 0 [] []
        (Except.ok [ToServerCommands.ClientJoin 1])).sent.getLast?
        = some (SentMsg.fullSync (postDrainView (constBackend [BackendCommand.Delta ()])
            0 () [] 0 [] [ToServerCommands.ClientJoin 1]))
    ∧ (update_server (constBackend [BackendCommand.Delta ()]) 0 () [] 0 [] []
        (Except.ok [ToServerCommands.ClientJoin 1])).sent.countP isFullMsg = 1
    ∧ (update_server (constBackend [BackendCommand.Delta ()]) 0 () [] 0 [] []
        (Except.ok [ToServerCommands.ClientJoin 1])).state_info_que
        = [] ++ (retainedDeltas (constBackend [BackendCommand.Delta ()])
            0 () [] 0 [] [ToServerCommands.ClientJoin 1]).map
              ViewStateUpdate.Incremental :=
  join_full_sync_c7 (constBackend [BackendCommand.Delta ()]) 0 () [] 0 [] []
    [ToServerCommands.ClientJoin 1] (by decide) (by rfl) (by rfl) (by decide)

end Multiplayer

namespace Multiplayer

/-! ### Host/client receive paths
(`server_receive_commands_for` and `client_receive_update`,
src/backbone-lib/src/web_socket_interface.rs lines 193-281).

Postcard decoding of the embedder's payload types is abstracted as
decoder functions.  Rust panics (`expect`, `Buf` underflow) are a
distinct outcome constructor, separate from the `Err` returns. -/

/-- The `Err` payloads of the receive loops. -/
inductive RecvErr where
  /-- `SERVER_ERROR` frame: the reason bytes (read as lossy UTF-8). -/
  | serverText (payload : List Nat)
  /-- `Err(format!("Unknown message received: {:?}", msg))`. -/
  | unknownTag (tag : Nat)
deriving Repr, DecidableEq

/-- How a receive loop ends: a normal batch, an `Err` return, a Rust
panic with its `expect` message, or non-termination (a delta decoder
that consumes nothing). -/
inductive RecvOutcome (A : Type) where
  | ok (xs : List A)
  | err (e : RecvErr)
  | panicked (msg : String)
  | hang
deriving Repr, DecidableEq

/-- Prepend decoded items to a batch, passing failures through. -/
def appendOutcome {A : Type} (xs : List A) : RecvOutcome A → RecvOutcome A
  | RecvOutcome.ok ys => RecvOutcome.ok (xs ++ ys)
  | o => o

/-- `server_receive_commands_for`: drain all pending binary frames,
dispatch on the tag byte, and build the `ToServerCommands` batch. -/
def server_receive_commands_for {Rpc : Type}
    (decodeRpc : List Nat → Option Rpc) :
    List Frame → RecvOutcome (ToServerCommands Rpc)
  | [] => RecvOutcome.ok []
  | f :: fs =>
    match f with
    | [] => RecvOutcome.panicked "advance out of bounds"
    | tag :: rest =>
      if tag = SERVER_ERROR then RecvOutcome.err (RecvErr.serverText rest)
      else if tag = NEW_CLIENT then
        match rest with
        | hi :: lo :: _ =>
          appendOutcome [ToServerCommands.ClientJoin (getU16 hi lo)]
            (server_receive_commands_for decodeRpc fs)
        | _ => RecvOutcome.panicked "advance out of bounds"
      else if tag = CLIENT_DISCONNECTS then
        match rest with
        | hi :: lo :: _ =>
          appendOutcome [ToServerCommands.ClientLeft (getU16 hi lo)]
            (server_receive_commands_for decodeRpc fs)
        | _ => RecvOutcome.panicked "advance out of bounds"
      else if tag = SERVER_RPC then
        match rest with
        | hi :: lo :: payload =>
          match decodeRpc payload with
          | some p =>
            appendOutcome [ToServerCommands.Rpc (getU16 hi lo) p]
              (server_receive_commands_for decodeRpc fs)
          | none => RecvOutcome.panicked "Failed to deserialize server rpc payload"
        | _ => RecvOutcome.panicked "advance out of bounds"
      else RecvOutcome.err (RecvErr.unknownTag tag)

/-- The `DELTA_UPDATE` payload loop of `client_receive_update`: decode a
prefix repeatedly until the buffer is empty.  A decoder returning an
unshrunk tail would loop forever in the source; that is the `hang`
outcome. -/
def decodeDeltaChain {Delta : Type}
    (takeDelta : List Nat → Option (Delta × List Nat)) :
    List Nat → RecvOutcome Delta
  | [] => RecvOutcome.ok []
  | x :: xs =>
    match takeDelta (x :: xs) with
    | none => RecvOutcome.panicked "Failed to decode delta payload"
    | some (d, rest) =>
      if _h : rest.length < (x :: xs).length then
        appendOutcome [d] (decodeDeltaChain takeDelta rest)
      else RecvOutcome.hang
termination_by l => l.length

/-- `client_receive_update`: drain all pending binary frames on the
client side and build the `ViewStateUpdate` batch. -/
def client_receive_update {ViewState Delta : Type}
    (decodeView : List Nat → Option ViewState)
    (takeDelta : List Nat → Option (Delta × List Nat)) :
    List Frame → RecvOutcome (ViewStateUpdate ViewState Delta)
  | [] => RecvOutcome.ok []
  | f :: fs =>
    match f with
    | [] => RecvOutcome.panicked "advance out of bounds"
    | tag :: rest =>
      if tag = SERVER_ERROR then RecvOutcome.err (RecvErr.serverText rest)
      else if tag = DELTA_UPDATE then
        match decodeDeltaChain takeDelta rest with
        | RecvOutcome.ok ds =>
          appendOutcome (ds.map ViewStateUpdate.Incremental)
            (client_receive_update decodeView takeDelta fs)
        | RecvOutcome.err e => RecvOutcome.err e
        | RecvOutcome.panicked m => RecvOutcome.panicked m
        | RecvOutcome.hang => RecvOutcome.hang
      else if tag = FULL_UPDATE ∨ tag = RESET then
        match decodeView rest with
        | some v =>
          appendOutcome [ViewStateUpdate.Full v]
            (client_receive_update decodeView takeDelta fs)
        | none => RecvOutcome.panicked "Failed to decode full payload"
      else RecvOutcome.err (RecvErr.unknownTag tag)

end Multiplayer

namespace Multiplayer

/-- C10 — Undecodable game payloads panic instead of erroring: a
`SERVER_RPC` frame whose post-id bytes fail the payload decoder makes
`server_receive_commands_for` panic via `expect`, and a `DELTA_UPDATE`,
`FULL_UPDATE` or `RESET` frame whose payload fails to decode makes
`client_receive_update` panic; neither returns an `Err` (which is what
triggers a `Disconnected` transition in the tick), unlike unknown-tag
frames, which return `Err`. -/
theorem undecodable_payload_panics_c10 {Rpc ViewState Delta : Type}
    (decodeRpc : List Nat → Option Rpc)
    (decodeView : List Nat → Option ViewState)
    (takeDelta : List Nat → Option (Delta × List Nat))
    (hi lo x t1 t2 : Nat) (payload xs rest : List Nat) (fs : List Frame)
    (hrpc : decodeRpc payload = none)
    (hdelta : takeDelta (x :: xs) = none)
    (hview : decodeView rest = none)
    (ht1 : t1 ≠ NEW_CLIENT ∧ t1 ≠ CLIENT_DISCONNECTS ∧ t1 ≠ SERVER_RPC
        ∧ t1 ≠ SERVER_ERROR)
    (ht2 : t2 ≠ DELTA_UPDATE ∧ t2 ≠ FULL_UPDATE ∧ t2 ≠ RESET
        ∧ t2 ≠ SERVER_ERROR) :
    server_receive_commands_for decodeRpc ((SERVER_RPC :: hi :: lo :: payload) :: fs)
      = RecvOutcome.panicked "Failed to deserialize server rpc payload"
    ∧ client_receive_update decodeView takeDelta ((DELTA_UPDATE :: x :: xs) :: fs)
      = RecvOutcome.panicked "Failed to decode delta payload"
    ∧ client_receive_update decodeView takeDelta ((FULL_UPDATE :: rest) :: fs)
      = RecvOutcome.panicked "Failed to decode full payload"
    ∧ client_receive_update decodeView takeDelta ((RESET :: rest) :: fs)
      = RecvOutcome.panicked "Failed to decode full payload"
    ∧ server_receive_commands_for decodeRpc ((t1 :: rest) :: fs)
      = RecvOutcome.err (RecvErr.unknownTag t1)
    ∧ client_receive_update decodeView takeDelta ((t2 :: rest) :: fs)
      = RecvOutcome.err (RecvErr.unknownTag t2) := by
  obtain ⟨h10, h11, h12, h15⟩ := ht1
  obtain ⟨h22, h23, h24, h25⟩ := ht2
  refine ⟨?_, ?_, ?_, ?_, ?_, ?_⟩
  · simp [server_receive_commands_for, hrpc,
      SERVER_ERROR, NEW_CLIENT, CLIENT_DISCONNECTS, SERVER_RPC]
  · simp [client_receive_update, decodeDeltaChain, hdelta,
      SERVER_ERROR, DELTA_UPDATE]
  · simp [client_receive_update, hview,
      SERVER_ERROR, DELTA_UPDATE, FULL_UPDATE, RESET]
  · simp [client_receive_update, hview,
      SERVER_ERROR, DELTA_UPDATE, FULL_UPDATE, RESET]
  · simp [server_receive_commands_for, h10, h11, h12, h15]
  · simp [client_receive_update, h22, h23, h24, h25]

/-- Concrete instance of the panic theorem: decoders that always fail
and the unknown tags 7 (host side) and 9 (client side). -/
theorem undecodable_payload_panics_c10_witness :
    server_receive_commands_for (fun _ => (none : Option Unit))
        ((SERVER_RPC :: 0 :: 0 :: []) :: [])
      = RecvOutcome.panicked "Failed to deserialize server rpc payload"
    ∧ client_receive_update (fun _ => (none : Option Unit))
        (fun _ => (none : Option (Unit × List Nat))) ((DELTA_UPDATE :: 0 :: []) :: [])
      = RecvOutcome.panicked "Failed to decode delta payload"
    ∧ client_receive_update (fun _ => (none : Option Unit))
        (fun _ => (none : Option (Unit × List Nat))) ((FULL_UPDATE :: ([] : List Nat)) :: [])
      = RecvOutcome.panicked "Failed to decode full payload"
    ∧ client_receive_update (fun _ => (none : Option Unit))
        (fun _ => (none : Option (Unit × List Nat))) ((RESET :: ([] : List Nat)) :: [])
      = RecvOutcome.panicked "Failed to decode full payload"
    ∧ server_receive_commands_for (fun _ => (none : Option Unit)) ((7 :: ([] : List Nat)) :: [])
      = RecvOutcome.err (RecvErr.unknownTag 7)
    ∧ client_receive_update (fun _ => (none : Option Unit))
        (fun _ => (none : Option (Unit × List Nat))) ((9 :: ([] : List Nat)) :: [])
      = RecvOutcome.err (RecvErr.unknownTag 9) :=
  undecodable_payload_panics_c10 (fun _ => (none : Option Unit))
    (fun _ => (none : Option Unit)) (fun _ => (none : Option (Unit × List Nat)))
    0 0 0 7 9 [] [] [] [] rfl rfl rfl (by decide) (by decide)

end Multiplayer
